import Mathlib

/-!
Shallow embedding of the gamification core of the EVAT-App-BE backend
(`src/controllers/gamification-controller.ts`, `src/models/game-model.ts`),
together with theorems checking the natural-language specification against it.

Conventions of the embedding:
* JavaScript numbers holding point balances, net worth, streaks and counters
  are modelled as `Int`.
* Mongo `ObjectId`s are modelled as `Nat`.
* Calendar days (the granularity at which `toDateString()` compares dates in
  the login-streak logic) are modelled as `Int` day numbers; "yesterday"
  relative to day `d` is day `d - 1`.
* A Mongo collection of profiles is a `List GameProfileDoc` looked up by
  `main_app_user_id`; the append-only event log is a `List GameEventDoc`.
* `findOne` is `List.find?`; a failed request returns before any `save()`,
  so the store and event log are threaded explicitly and returned unchanged
  on the error paths.
-/

namespace EVAT

/-- The `contribution_summary` sub-document of `GameProfileSchema`
(game-model.ts lines 50-60): the nine counter fields with default 0. -/
structure ContributionSummary where
  total_check_ins : Int := 0
  total_fault_reports : Int := 0
  total_ai_validations : Int := 0
  total_black_spot_discoveries : Int := 0
  total_route_plans : Int := 0
  total_chatbot_questions : Int := 0
  total_quizzes_correct : Int := 0
  total_easter_eggs_redeemed : Int := 0
  total_virtual_items_purchased : Int := 0
deriving Repr, DecidableEq

/-- The `engagement_metrics` sub-document (game-model.ts lines 45-49);
`last_login_date` is a nullable date, kept at calendar-day granularity. -/
structure EngagementMetrics where
  current_app_login_streak : Int := 0
  longest_app_login_streak : Int := 0
  last_login_date : Option Int := none
deriving Repr, DecidableEq

/-- The `gamification_profile` sub-document (game-model.ts lines 40-44). -/
structure GamificationStats where
  persona : String := "ANXIOUS_NEWCOMER"
  points_balance : Int := 0
  net_worth : Int := 0
deriving Repr, DecidableEq

/-- The `inventory` sub-document (game-model.ts lines 61-64): lists of ObjectIds. -/
structure Inventory where
  badges_earned : List Nat := []
  virtual_items : List Nat := []
deriving Repr, DecidableEq

/-- A `GameProfile` document (game-model.ts lines 37-66). -/
structure GameProfileDoc where
  main_app_user_id : String
  gamification_profile : GamificationStats := {}
  engagement_metrics : EngagementMetrics := {}
  contribution_summary : ContributionSummary := {}
  inventory : Inventory := {}
  active_quests : List Nat := []
deriving Repr, DecidableEq

/-- The result of `new GameProfile({ main_app_user_id: userId })`: every other field takes
its schema default. -/
def newGameProfile (userId : String) : GameProfileDoc :=
  { main_app_user_id := userId }

/-- A `GameVirtualItem` document (game-model.ts lines 180-190); `oid` is the
Mongo `_id`, `cost_points` is nullable. -/
structure GameVirtualItemDoc where
  oid : Nat
  item_id_string : String
  name : String := ""
  cost_points : Option Int := none
  value_points : Int := 0
deriving Repr, DecidableEq

/-- The `details` object written into a `GameEvent`. Purchase events populate
`points_change`, `reason` and `item_id_string`; `logAction` passes the
caller-supplied details through unchanged. -/
structure EventDetails where
  points_change : Option Int := none
  reason : Option String := none
  item_id_string : Option String := none
deriving Repr, DecidableEq

/-- A `GameEvent` document (game-model.ts lines 83-90). -/
structure GameEventDoc where
  user_id : String
  session_id : Option String := none
  event_type : String
  action_type : Option String := none
  details : EventDetails := {}
deriving Repr, DecidableEq

/-- The `actionPoints` map (gamification-controller.ts lines 6-19). -/
def actionPointsTable : List (String × Int) :=
  [("app_login", 10),
   ("check_in", 10),
   ("upload_photo", 15),
   ("fun_quiz_correct", 20),
   ("ask_chatbot_question", 20),
   ("use_route_planner", 25),
   ("report_fault", 50),
   ("validate_ai_prediction", 75),
   ("redeem_easter_egg", 100),
   ("complete_long_trip_with_planner", 150),
   ("charge_at_green_station", 250),
   ("discover_new_station_in_black_spot", 1000)]

/-- The lookup `actionPoints[action_type] || 0` (gamification-controller.ts line 165). -/
def pointsFor (action_type : String) : Int :=
  (actionPointsTable.lookup action_type).getD 0

/-- The property keys of the `contribution_summary` sub-document, the set the
`summaryKey in userProfile.contribution_summary` test ranges over. -/
def summaryKeys : List String :=
  ["total_check_ins", "total_fault_reports", "total_ai_validations",
   "total_black_spot_discoveries", "total_route_plans",
   "total_chatbot_questions", "total_quizzes_correct",
   "total_easter_eggs_redeemed", "total_virtual_items_purchased"]

/-- The statement `if (summaryKey in contribution_summary) contribution_summary[summaryKey]++`
(gamification-controller.ts lines 171-174): increment the field named by the
key when one exists, otherwise change nothing. -/
def bumpCounter (cs : ContributionSummary) (key : String) : ContributionSummary :=
  if key == "total_check_ins" then
    { cs with total_check_ins := cs.total_check_ins + 1 }
  else if key == "total_fault_reports" then
    { cs with total_fault_reports := cs.total_fault_reports + 1 }
  else if key == "total_ai_validations" then
    { cs with total_ai_validations := cs.total_ai_validations + 1 }
  else if key == "total_black_spot_discoveries" then
    { cs with total_black_spot_discoveries := cs.total_black_spot_discoveries + 1 }
  else if key == "total_route_plans" then
    { cs with total_route_plans := cs.total_route_plans + 1 }
  else if key == "total_chatbot_questions" then
    { cs with total_chatbot_questions := cs.total_chatbot_questions + 1 }
  else if key == "total_quizzes_correct" then
    { cs with total_quizzes_correct := cs.total_quizzes_correct + 1 }
  else if key == "total_easter_eggs_redeemed" then
    { cs with total_easter_eggs_redeemed := cs.total_easter_eggs_redeemed + 1 }
  else if key == "total_virtual_items_purchased" then
    { cs with total_virtual_items_purchased := cs.total_virtual_items_purchased + 1 }
  else cs

/-- The `if (lastLogin) ... else ...` ladder of the `app_login` branch of
`logAction` (gamification-controller.ts lines 179-189), at calendar-day
granularity.  `lastLogin` equal to `today - 1` means
`lastLogin.toDateString() === yesterday.toDateString()`; equal to `today`
means same calendar day. -/
def streakUpdate (em : EngagementMetrics) (today : Int) : EngagementMetrics :=
  match em.last_login_date with
  | some lastLogin =>
      if lastLogin = today - 1 then
        { em with current_app_login_streak := em.current_app_login_streak + 1 }
      else if lastLogin ≠ today then
        { em with current_app_login_streak := 1 }
      else em
  | none => { em with current_app_login_streak := 1 }

/-- The whole `app_login` branch (gamification-controller.ts lines 176-194):
the streak ladder, then the `longest` update, then `last_login_date = today`. -/
def advanceStreak (em : EngagementMetrics) (today : Int) : EngagementMetrics :=
  let em1 := streakUpdate em today
  let em2 :=
    if em1.current_app_login_streak > em1.longest_app_login_streak then
      { em1 with longest_app_login_streak := em1.current_app_login_streak }
    else em1
  { em2 with last_login_date := some today }

/-- The per-profile body of `logAction` (gamification-controller.ts lines
165-205): base points, counter bump via the dynamic `total_${action_type}s`
key, streak update for `app_login`, and the single `ACTION_PERFORMED` event. -/
def logAction (profile : GameProfileDoc) (action_type : String) (today : Int)
    (session_id : Option String) (details : EventDetails) :
    GameProfileDoc × GameEventDoc :=
  let pointsToAdd := pointsFor action_type
  let gp := profile.gamification_profile
  let gp :=
    if pointsToAdd > 0 then
      { gp with points_balance := gp.points_balance + pointsToAdd
                net_worth := gp.net_worth + pointsToAdd }
    else gp
  let cs := bumpCounter profile.contribution_summary ("total_" ++ action_type ++ "s")
  let em :=
    if action_type = "app_login" then advanceStreak profile.engagement_metrics today
    else profile.engagement_metrics
  let profileNew :=
    { profile with gamification_profile := gp
                   contribution_summary := cs
                   engagement_metrics := em }
  let ev : GameEventDoc :=
    { user_id := profile.main_app_user_id
      session_id := session_id
      event_type := "ACTION_PERFORMED"
      action_type := some action_type
      details := details }
  (profileNew, ev)

/-- The query `GameProfile.findOne({ main_app_user_id: userId })`. -/
def findProfile (store : List GameProfileDoc) (userId : String) :
    Option GameProfileDoc :=
  store.find? (fun p => p.main_app_user_id == userId)

/-- The effect of `userProfile.save()`: replace the document with the same
`main_app_user_id`, or insert it if absent. -/
def saveProfile (store : List GameProfileDoc) (p : GameProfileDoc) :
    List GameProfileDoc :=
  if (store.find? (fun q => q.main_app_user_id == p.main_app_user_id)).isSome then
    store.map (fun q => if q.main_app_user_id == p.main_app_user_id then p else q)
  else store ++ [p]

/-- The query `GameVirtualItem.findOne({ item_id_string: itemId })`. -/
def findItem (catalog : List GameVirtualItemDoc) (itemId : String) :
    Option GameVirtualItemDoc :=
  catalog.find? (fun it => it.item_id_string == itemId)

/-- The whole `logAction` endpoint against a profile store and event log:
load-or-create the profile, apply the per-profile body, save the profile and
append the event. -/
def logActionInStore (store : List GameProfileDoc) (events : List GameEventDoc)
    (userId action_type : String) (today : Int) (session_id : Option String)
    (details : EventDetails) :
    List GameProfileDoc × List GameEventDoc :=
  let userProfile := (findProfile store userId).getD (newGameProfile userId)
  let r := logAction userProfile action_type today session_id details
  (saveProfile store r.1, events ++ [r.2])

/-- The error responses of `purchaseVirtualItem` (gamification-controller.ts
lines 111-115), under the names the specification gives them. -/
inductive PurchaseError where
  | NotFound
  | NotPurchasable
  | AlreadyOwned
  | InsufficientFunds
deriving Repr, DecidableEq

/-- The success payload of `purchaseVirtualItem`: `new_balance`, the updated
profile, and the `POINTS_TRANSACTION` event it logs. -/
structure PurchaseOk where
  new_balance : Int
  updated_profile : GameProfileDoc
  event : GameEventDoc
deriving Repr, DecidableEq

/-- The body of `purchaseVirtualItem` (gamification-controller.ts lines
107-143) against a loaded catalog entry and optionally stored profile:
the four checks in source order, then the atomic effects. -/
def purchaseVirtualItem (catalog : List GameVirtualItemDoc)
    (stored : Option GameProfileDoc) (userId itemId : String)
    (session_id : Option String) : Except PurchaseError PurchaseOk :=
  match findItem catalog itemId with
  | none => .error .NotFound
  | some item =>
    let userProfile := stored.getD (newGameProfile userId)
    match item.cost_points with
    | none => .error .NotPurchasable
    | some cost =>
      if userProfile.inventory.virtual_items.contains item.oid then
        .error .AlreadyOwned
      else if userProfile.gamification_profile.points_balance < cost then
        .error .InsufficientFunds
      else
        let gp := userProfile.gamification_profile
        let profileNew :=
          { userProfile with
              gamification_profile :=
                { gp with points_balance := gp.points_balance - cost
                          net_worth := gp.net_worth + (item.value_points - cost) }
              inventory :=
                { userProfile.inventory with
                    virtual_items := userProfile.inventory.virtual_items ++ [item.oid] }
              contribution_summary :=
                { userProfile.contribution_summary with
                    total_virtual_items_purchased :=
                      userProfile.contribution_summary.total_virtual_items_purchased + 1 } }
        let ev : GameEventDoc :=
          { user_id := userId
            session_id := session_id
            event_type := "POINTS_TRANSACTION"
            action_type := some "purchase_virtual_item"
            details :=
              { points_change := some (-cost)
                reason := some "ITEM_PURCHASE"
                item_id_string := some item.item_id_string } }
        .ok { new_balance := profileNew.gamification_profile.points_balance
              updated_profile := profileNew
              event := ev }

/-- The whole `purchaseVirtualItem` endpoint against a profile store and event
log: every error path returns before any `save()`, so the store and log are
returned unchanged there; the success path saves the profile and appends the
event. -/
def purchaseInStore (catalog : List GameVirtualItemDoc)
    (store : List GameProfileDoc) (events : List GameEventDoc)
    (userId itemId : String) (session_id : Option String) :
    Except PurchaseError PurchaseOk × List GameProfileDoc × List GameEventDoc :=
  match purchaseVirtualItem catalog (findProfile store userId) userId itemId session_id with
  | .error e => (.error e, store, events)
  | .ok r => (.ok r, saveProfile store r.updated_profile, events ++ [r.event])

/-- One row of the leaderboard response: the fields selected by
`getLeaderboard` (gamification-controller.ts line 68). -/
structure LeaderboardEntry where
  main_app_user_id : String
  persona : String
  net_worth : Int
deriving Repr, DecidableEq

/-- The Mongo sort key `{ 'gamification_profile.net_worth': -1 }`: descending
net worth. -/
def byNetWorthDesc (a b : GameProfileDoc) : Prop :=
  b.gamification_profile.net_worth ≤ a.gamification_profile.net_worth

instance : DecidableRel byNetWorthDesc := fun a b =>
  inferInstanceAs (Decidable (_ ≤ _))

instance : IsTotal GameProfileDoc byNetWorthDesc :=
  ⟨fun a b => le_total _ _⟩

instance : IsTrans GameProfileDoc byNetWorthDesc :=
  ⟨fun _ _ _ hab hbc => le_trans hbc hab⟩

/-- The `getLeaderboard` endpoint (gamification-controller.ts lines 63-75): sort all
profiles by descending net worth, keep the first 100, and project each to
`{main_app_user_id, persona, net_worth}`. -/
def getLeaderboard (store : List GameProfileDoc) : List LeaderboardEntry :=
  ((List.insertionSort byNetWorthDesc store).take 100).map
    (fun p => { main_app_user_id := p.main_app_user_id
                persona := p.gamification_profile.persona
                net_worth := p.gamification_profile.net_worth })

/-! ### Concrete data for witnesses -/

/-- A stored profile with 100 spendable points (spec scenario B). -/
def demoProfileB : GameProfileDoc :=
  { main_app_user_id := "u1"
    gamification_profile := { points_balance := 100 } }

/-- A catalog with one purchasable item costing 60 and worth 80
(spec scenario B). -/
def demoCatalogB : List GameVirtualItemDoc :=
  [{ oid := 7, item_id_string := "hat", name := "Hat",
     cost_points := some 60, value_points := 80 }]

/-! ### Helper lemmas about the streak logic -/

theorem streakUpdate_same_day (em : EngagementMetrics) (d : Int)
    (h : em.last_login_date = some d) :
    (streakUpdate em d).current_app_login_streak = em.current_app_login_streak := by
  have hne : d ≠ d - 1 := by omega
  simp [streakUpdate, h, hne]

theorem streakUpdate_next_day (em : EngagementMetrics) (d : Int)
    (h : em.last_login_date = some d) :
    (streakUpdate em (d + 1)).current_app_login_streak =
      em.current_app_login_streak + 1 := by
  have heq : d + 1 - 1 = d := by omega
  simp [streakUpdate, h, heq]

theorem streakUpdate_other_day (em : EngagementMetrics) (d d2 : Int)
    (h : em.last_login_date = some d) (h1 : d ≠ d2 - 1) (h2 : d ≠ d2) :
    (streakUpdate em d2).current_app_login_streak = 1 := by
  simp [streakUpdate, h, h1, h2]

theorem streakUpdate_none (em : EngagementMetrics) (d : Int)
    (h : em.last_login_date = none) :
    (streakUpdate em d).current_app_login_streak = 1 := by
  simp [streakUpdate, h]

theorem streakUpdate_longest_eq (em : EngagementMetrics) (d : Int) :
    (streakUpdate em d).longest_app_login_streak = em.longest_app_login_streak := by
  unfold streakUpdate
  cases hl : em.last_login_date with
  | none => rfl
  | some l =>
    by_cases h1 : l = d - 1
    · simp [h1]
    · by_cases h2 : l ≠ d <;> simp [h1, h2]

theorem advanceStreak_current (em : EngagementMetrics) (d : Int) :
    (advanceStreak em d).current_app_login_streak =
      (streakUpdate em d).current_app_login_streak := by
  simp only [advanceStreak]
  generalize streakUpdate em d = em1
  by_cases hc : em1.current_app_login_streak > em1.longest_app_login_streak <;>
    simp [hc]

theorem advanceStreak_last_login (em : EngagementMetrics) (d : Int) :
    (advanceStreak em d).last_login_date = some d := by
  simp only [advanceStreak]

theorem advanceStreak_longest (em : EngagementMetrics) (d : Int) :
    (advanceStreak em d).longest_app_login_streak =
      max em.longest_app_login_streak
        (streakUpdate em d).current_app_login_streak := by
  have h := streakUpdate_longest_eq em d
  simp only [advanceStreak]
  generalize hg : streakUpdate em d = em1 at h ⊢
  by_cases hc : em1.current_app_login_streak > em1.longest_app_login_streak <;>
    simp [hc] <;> omega

theorem logAction_app_login_metrics (p : GameProfileDoc) (d : Int)
    (sid : Option String) (det : EventDetails) :
    ((logAction p "app_login" d sid det).1).engagement_metrics =
      advanceStreak p.engagement_metrics d := by
  simp [logAction]

/-! ### Helper lemmas about the store and the reward table -/

theorem pointsFor_nonneg (s : String) : 0 ≤ pointsFor s := by
  unfold pointsFor actionPointsTable
  simp only [List.lookup]
  repeat' split
  all_goals simp

theorem find?_map_replace (P : GameProfileDoc) :
    ∀ store : List GameProfileDoc,
      ((store.find? fun q => q.main_app_user_id == P.main_app_user_id)).isSome →
      ((store.map fun q =>
          if q.main_app_user_id == P.main_app_user_id then P else q).find?
        fun q => q.main_app_user_id == P.main_app_user_id) = some P := by
  intro store
  induction store with
  | nil => intro hs; simp at hs
  | cons q qs ih =>
    intro hs
    by_cases hq : (q.main_app_user_id == P.main_app_user_id) = true
    · rw [List.map_cons, if_pos hq]
      simp
    · have hqf : (q.main_app_user_id == P.main_app_user_id) = false := by
        simpa using hq
      have hs' :
          ((qs.find? fun r => r.main_app_user_id == P.main_app_user_id)).isSome := by
        simpa [hqf] using hs
      rw [List.map_cons, if_neg hq]
      simpa [hqf] using ih hs'

theorem find?_append_self (P : GameProfileDoc) :
    ∀ store : List GameProfileDoc,
      ¬ ((store.find? fun q => q.main_app_user_id == P.main_app_user_id)).isSome →
      ((store ++ [P]).find? fun q => q.main_app_user_id == P.main_app_user_id) =
        some P := by
  intro store
  induction store with
  | nil => intro _; simp
  | cons q qs ih =>
    intro hs
    by_cases hq : (q.main_app_user_id == P.main_app_user_id) = true
    · exact absurd (by simp [hq]) hs
    · have hqf : (q.main_app_user_id == P.main_app_user_id) = false := by
        simpa using hq
      have hs' :
          ¬ ((qs.find? fun r => r.main_app_user_id == P.main_app_user_id)).isSome := by
        simpa [hqf] using hs
      rw [List.cons_append]
      simpa [hqf] using ih hs'

theorem findProfile_saveProfile (store : List GameProfileDoc)
    (P : GameProfileDoc) :
    findProfile (saveProfile store P) P.main_app_user_id = some P := by
  unfold findProfile saveProfile
  by_cases hs :
      ((store.find? fun q => q.main_app_user_id == P.main_app_user_id)).isSome
  · rw [if_pos hs]
    exact find?_map_replace P store hs
  · rw [if_neg hs]
    exact find?_append_self P store hs

theorem purchase_ok_profile (catalog : List GameVirtualItemDoc)
    (stored : Option GameProfileDoc) (userId itemId : String)
    (sid : Option String) (r : PurchaseOk)
    (h : purchaseVirtualItem catalog stored userId itemId sid = .ok r)
    (hnn : 0 ≤ (stored.getD (newGameProfile userId)).gamification_profile.points_balance) :
    0 ≤ r.updated_profile.gamification_profile.points_balance ∧
    r.updated_profile.main_app_user_id =
      (stored.getD (newGameProfile userId)).main_app_user_id := by
  simp only [purchaseVirtualItem] at h
  split at h
  · exact absurd h (by simp)
  · split at h
    · exact absurd h (by simp)
    · split at h
      · exact absurd h (by simp)
      · split at h
        · exact absurd h (by simp)
        · rename_i hbal
          have hr := (Except.ok.inj h).symm
          subst hr
          refine ⟨?_, rfl⟩
          simp only []
          omega

/-! ### Theorems -/

/-- C1: `purchaseVirtualItem` checks its preconditions in the fixed order
item-exists (`NotFound`), `cost_points` non-null (`NotPurchasable`), not
already owned (`AlreadyOwned`), sufficient balance (`InsufficientFunds`);
the first failing check determines the error, and every error path returns
the profile store and the event log exactly as they were before the call. -/
theorem purchase_precondition_order_and_rollback
    (catalog : List GameVirtualItemDoc) (store : List GameProfileDoc)
    (events : List GameEventDoc) (userId itemId : String)
    (sid : Option String) :
    (∀ e st ev,
        purchaseInStore catalog store events userId itemId sid = (.error e, st, ev) →
        st = store ∧ ev = events) ∧
    (findItem catalog itemId = none →
        purchaseInStore catalog store events userId itemId sid =
          (.error .NotFound, store, events)) ∧
    (∀ item, findItem catalog itemId = some item →
      let profile := (findProfile store userId).getD (newGameProfile userId)
      (item.cost_points = none →
          purchaseInStore catalog store events userId itemId sid =
            (.error .NotPurchasable, store, events)) ∧
      (∀ cost, item.cost_points = some cost →
        (item.oid ∈ profile.inventory.virtual_items →
            purchaseInStore catalog store events userId itemId sid =
              (.error .AlreadyOwned, store, events)) ∧
        (item.oid ∉ profile.inventory.virtual_items →
         profile.gamification_profile.points_balance < cost →
            purchaseInStore catalog store events userId itemId sid =
              (.error .InsufficientFunds, store, events)))) := by
  refine ⟨?_, ?_, ?_⟩
  · intro e st ev h
    unfold purchaseInStore at h
    cases hp : purchaseVirtualItem catalog (findProfile store userId) userId itemId sid with
    | error e₀ => rw [hp] at h; exact ⟨congrArg (Prod.fst ∘ Prod.snd) h.symm,
        congrArg (Prod.snd ∘ Prod.snd) h.symm⟩
    | ok r => rw [hp] at h; exact absurd (congrArg Prod.fst h) (by simp)
  · intro hnone
    simp [purchaseInStore, purchaseVirtualItem, hnone]
  · intro item hitem
    refine ⟨?_, ?_⟩
    · intro hcost
      simp [purchaseInStore, purchaseVirtualItem, hitem, hcost]
    · intro cost hcost
      refine ⟨?_, ?_⟩
      · intro howned
        simp [purchaseInStore, purchaseVirtualItem, hitem, hcost, howned]
      · intro howned hbal
        simp [purchaseInStore, purchaseVirtualItem, hitem, hcost, howned, hbal]

/-- Witness for C1: with an empty catalog the call fails with `NotFound` and
leaves a one-profile store and a nonempty event log untouched. -/
theorem purchase_precondition_order_and_rollback_witness :
    purchaseInStore [] [demoProfileB]
        [{ user_id := "u1", event_type := "ACTION_PERFORMED" }] "u1" "hat" none =
      (.error .NotFound, [demoProfileB],
        [{ user_id := "u1", event_type := "ACTION_PERFORMED" }]) :=
  (purchase_precondition_order_and_rollback [] [demoProfileB]
      [{ user_id := "u1", event_type := "ACTION_PERFORMED" }] "u1" "hat" none).2.1 rfl

/-- C2: when all four purchase preconditions hold, `purchaseVirtualItem`
debits exactly `cost_points`, credits net worth by `value_points − cost_points`,
appends the item id to the owned items, increments
`total_virtual_items_purchased` by 1, and appends exactly one
`POINTS_TRANSACTION` event with reason `ITEM_PURCHASE`, points change
`-cost_points` and the item id. -/
theorem purchase_success_effects
    (catalog : List GameVirtualItemDoc) (store : List GameProfileDoc)
    (events : List GameEventDoc) (userId itemId : String) (sid : Option String)
    (item : GameVirtualItemDoc) (cost : Int) (p : GameProfileDoc)
    (hp : findProfile store userId = some p)
    (hitem : findItem catalog itemId = some item)
    (hcost : item.cost_points = some cost)
    (howned : item.oid ∉ p.inventory.virtual_items)
    (hbal : cost ≤ p.gamification_profile.points_balance) :
    ∃ ok : PurchaseOk,
      purchaseInStore catalog store events userId itemId sid =
        (.ok ok, saveProfile store ok.updated_profile, events ++ [ok.event]) ∧
      ok.new_balance = p.gamification_profile.points_balance - cost ∧
      ok.updated_profile.gamification_profile.points_balance =
        p.gamification_profile.points_balance - cost ∧
      ok.updated_profile.gamification_profile.net_worth =
        p.gamification_profile.net_worth + (item.value_points - cost) ∧
      ok.updated_profile.inventory.virtual_items =
        p.inventory.virtual_items ++ [item.oid] ∧
      ok.updated_profile.contribution_summary.total_virtual_items_purchased =
        p.contribution_summary.total_virtual_items_purchased + 1 ∧
      ok.event.event_type = "POINTS_TRANSACTION" ∧
      ok.event.details.reason = some "ITEM_PURCHASE" ∧
      ok.event.details.points_change = some (-cost) ∧
      ok.event.details.item_id_string = some item.item_id_string := by
  refine ⟨?_, ?_⟩
  · exact { new_balance := p.gamification_profile.points_balance - cost
            updated_profile :=
              { p with
                  gamification_profile :=
                    { p.gamification_profile with
                        points_balance := p.gamification_profile.points_balance - cost
                        net_worth := p.gamification_profile.net_worth +
                          (item.value_points - cost) }
                  inventory :=
                    { p.inventory with
                        virtual_items := p.inventory.virtual_items ++ [item.oid] }
                  contribution_summary :=
                    { p.contribution_summary with
                        total_virtual_items_purchased :=
                          p.contribution_summary.total_virtual_items_purchased + 1 } }
            event :=
              { user_id := userId
                session_id := sid
                event_type := "POINTS_TRANSACTION"
                action_type := some "purchase_virtual_item"
                details :=
                  { points_change := some (-cost)
                    reason := some "ITEM_PURCHASE"
                    item_id_string := some item.item_id_string } } }
  · have hbal' : ¬ p.gamification_profile.points_balance < cost := not_lt.mpr hbal
    simp [purchaseInStore, purchaseVirtualItem, hp, hitem, hcost, howned, hbal']

/-- Witness for C2 (spec scenario B): balance 100, cost 60, value 80 gives
new balance 40 and net worth 20. -/
theorem purchase_success_effects_witness :
    ∃ ok : PurchaseOk,
      purchaseInStore demoCatalogB [demoProfileB] [] "u1" "hat" none =
        (.ok ok, saveProfile [demoProfileB] ok.updated_profile, [ok.event]) ∧
      ok.new_balance = 40 ∧
      ok.updated_profile.gamification_profile.net_worth = 20 := by
  obtain ⟨ok, hr, hnb, _hpb, hnw, -, -, -, -, -, -⟩ :=
    purchase_success_effects demoCatalogB [demoProfileB] [] "u1" "hat" none
      { oid := 7, item_id_string := "hat", name := "Hat",
        cost_points := some 60, value_points := 80 }
      60 demoProfileB rfl rfl rfl (by decide) (by decide)
  refine ⟨ok, by simpa using hr, by simpa [demoProfileB] using hnb,
    by simpa [demoProfileB] using hnw⟩

/-- C3 counterexample: for `check_in` the base reward is 10 > 0, yet the
event `logAction` appends is an `ACTION_PERFORMED` event carrying the
caller-supplied details; no `POINTS_TRANSACTION` event with reason
`BASE_REWARD` appears in the log. -/
theorem log_action_no_base_reward_event_counterexample :
    pointsFor "check_in" = 10 ∧
    (logActionInStore [demoProfileB] [] "u1" "check_in" 0 none {}).2 =
      [{ user_id := "u1", session_id := none, event_type := "ACTION_PERFORMED",
         action_type := some "check_in", details := {} }] ∧
    ((logActionInStore [demoProfileB] [] "u1" "check_in" 0 none {}).2.filter
        (fun e => e.event_type == "POINTS_TRANSACTION")) = [] ∧
    ((logActionInStore [demoProfileB] [] "u1" "check_in" 0 none {}).2.filter
        (fun e => e.details.reason == some "BASE_REWARD")) = [] := by
  refine ⟨rfl, ?_, ?_, ?_⟩ <;> decide

/-- C3 amended: for every action type with a positive base reward,
`logAction` increases `points_balance` and `net_worth` by exactly that
amount and appends exactly one event — but that event is the
`ACTION_PERFORMED` event with the caller-supplied details, not a
`POINTS_TRANSACTION`/`BASE_REWARD` entry. -/
theorem log_action_base_reward_amended
    (store : List GameProfileDoc) (events : List GameEventDoc)
    (userId action_type : String) (d : Int) (sid : Option String)
    (det : EventDetails) (p : GameProfileDoc)
    (hp : findProfile store userId = some p)
    (hpos : 0 < pointsFor action_type) :
    logActionInStore store events userId action_type d sid det =
      (saveProfile store (logAction p action_type d sid det).1,
       events ++ [(logAction p action_type d sid det).2]) ∧
    ((logAction p action_type d sid det).1).gamification_profile.points_balance =
      p.gamification_profile.points_balance + pointsFor action_type ∧
    ((logAction p action_type d sid det).1).gamification_profile.net_worth =
      p.gamification_profile.net_worth + pointsFor action_type ∧
    ((logAction p action_type d sid det).2).event_type = "ACTION_PERFORMED" ∧
    ((logAction p action_type d sid det).2).action_type = some action_type ∧
    ((logAction p action_type d sid det).2).details = det := by
  refine ⟨by simp [logActionInStore, hp], ?_, ?_, rfl, rfl, rfl⟩ <;>
    simp [logAction, hpos]

/-- Witness for C3's amended theorem: a `check_in` for a stored profile with
balance 100 yields balance 110, net worth 10, and one `ACTION_PERFORMED`
event. -/
theorem log_action_base_reward_amended_witness :
    logActionInStore [demoProfileB] [] "u1" "check_in" 0 none {} =
      (saveProfile [demoProfileB] (logAction demoProfileB "check_in" 0 none {}).1,
       [(logAction demoProfileB "check_in" 0 none {}).2]) ∧
    ((logAction demoProfileB "check_in" 0 none {}).1).gamification_profile.points_balance = 110 ∧
    ((logAction demoProfileB "check_in" 0 none {}).1).gamification_profile.net_worth = 10 ∧
    ((logAction demoProfileB "check_in" 0 none {}).2).event_type = "ACTION_PERFORMED" := by
  obtain ⟨h1, h2, h3, h4, -, -⟩ :=
    log_action_base_reward_amended [demoProfileB] [] "u1" "check_in" 0 none {}
      demoProfileB rfl (by decide)
  exact ⟨by simpa using h1, by rw [h2]; rfl, by rw [h3]; rfl, h4⟩

/-- C4: same-day repeat logins leave `current_app_login_streak` unchanged,
a login on the next calendar day adds exactly 1, a login after skipping at
least one full day resets it to 1, and after every call
`longest_app_login_streak = max (previous longest) (new current)`, so it
never decreases. -/
theorem app_login_streak_rules
    (p : GameProfileDoc) (d : Int) (sid sid2 : Option String)
    (det det2 : EventDetails) :
    (((logAction ((logAction p "app_login" d sid det).1) "app_login" d sid2
          det2).1).engagement_metrics.current_app_login_streak =
        ((logAction p "app_login" d sid
          det).1).engagement_metrics.current_app_login_streak) ∧
    (((logAction ((logAction p "app_login" d sid det).1) "app_login" (d + 1) sid2
          det2).1).engagement_metrics.current_app_login_streak =
        ((logAction p "app_login" d sid
          det).1).engagement_metrics.current_app_login_streak + 1) ∧
    (∀ d2 : Int, d + 2 ≤ d2 →
        ((logAction ((logAction p "app_login" d sid det).1) "app_login" d2 sid2
          det2).1).engagement_metrics.current_app_login_streak = 1) ∧
    (((logAction p "app_login" d sid
          det).1).engagement_metrics.longest_app_login_streak =
        max p.engagement_metrics.longest_app_login_streak
          ((logAction p "app_login" d sid
            det).1).engagement_metrics.current_app_login_streak) ∧
    (p.engagement_metrics.longest_app_login_streak ≤
        ((logAction p "app_login" d sid
          det).1).engagement_metrics.longest_app_login_streak) := by
  have hm1 := logAction_app_login_metrics p d sid det
  have hlast : ((logAction p "app_login" d sid
      det).1).engagement_metrics.last_login_date = some d := by
    rw [hm1]; exact advanceStreak_last_login _ _
  refine ⟨?_, ?_, ?_, ?_, ?_⟩
  · rw [logAction_app_login_metrics, advanceStreak_current,
      streakUpdate_same_day _ _ hlast]
  · rw [logAction_app_login_metrics, advanceStreak_current,
      streakUpdate_next_day _ _ hlast]
  · intro d2 hd2
    rw [logAction_app_login_metrics, advanceStreak_current,
      streakUpdate_other_day _ _ _ hlast (by omega) (by omega)]
  · rw [hm1, advanceStreak_longest, advanceStreak_current]
  · rw [hm1, advanceStreak_longest]
    exact le_max_left _ _

/-- Witness for C4: concrete three-day run — login on day 0 (streak 1),
again on day 0 (still 1), day 1 (streak 2), then day 3 after skipping a
day (streak 1), with `longest` ending at 2. -/
theorem app_login_streak_rules_witness :
    (((logAction ((logAction (newGameProfile "u1") "app_login" 0 none {}).1)
        "app_login" 0 none {}).1).engagement_metrics.current_app_login_streak =
      ((logAction (newGameProfile "u1") "app_login" 0 none
        {}).1).engagement_metrics.current_app_login_streak) ∧
    (((logAction ((logAction (newGameProfile "u1") "app_login" 0 none {}).1)
        "app_login" 1 none {}).1).engagement_metrics.current_app_login_streak =
      ((logAction (newGameProfile "u1") "app_login" 0 none
        {}).1).engagement_metrics.current_app_login_streak + 1) ∧
    (((logAction ((logAction (newGameProfile "u1") "app_login" 0 none {}).1)
        "app_login" 3 none {}).1).engagement_metrics.current_app_login_streak = 1) := by
  obtain ⟨h1, h2, h3, -, -⟩ :=
    app_login_streak_rules (newGameProfile "u1") 0 none none {} {}
  exact ⟨h1, h2, h3 3 (by decide)⟩

/-- C5 counterexample: a profile whose stored `last_login_date` is day 11
and current streak 5, logged in at day 10 (clock skew: current time earlier
than the stored login), has its streak reset to 1 rather than left at 5. -/
theorem clock_skew_counterexample :
    (((logAction
        { main_app_user_id := "u1",
          engagement_metrics :=
            { current_app_login_streak := 5, longest_app_login_streak := 5,
              last_login_date := some 11 } }
        "app_login" 10 none {}).1).engagement_metrics.current_app_login_streak = 1) ∧
    (1 : Int) ≠ 5 := by
  refine ⟨?_, by decide⟩
  decide

/-- C5 amended: when the call's calendar day is strictly earlier than the
stored `last_login_date`, `logAction` resets `current_app_login_streak`
to 1 (the clock-skewed date falls in the `else if` branch for a broken
streak), rather than leaving the streak unchanged. -/
theorem clock_skew_resets_streak
    (p : GameProfileDoc) (d l : Int) (sid : Option String) (det : EventDetails)
    (hl : p.engagement_metrics.last_login_date = some l) (hskew : d < l) :
    ((logAction p "app_login" d sid
      det).1).engagement_metrics.current_app_login_streak = 1 := by
  rw [logAction_app_login_metrics, advanceStreak_current,
    streakUpdate_other_day _ _ _ hl (by omega) (by omega)]

/-- Witness for C5's amended theorem: the day-10 login against a stored
day-11 `last_login_date` yields streak 1. -/
theorem clock_skew_resets_streak_witness :
    ((logAction
        { main_app_user_id := "u2",
          engagement_metrics :=
            { current_app_login_streak := 3, longest_app_login_streak := 4,
              last_login_date := some 11 } }
        "app_login" 10 none {}).1).engagement_metrics.current_app_login_streak = 1 :=
  clock_skew_resets_streak _ 10 11 none {} rfl (by omega)

/-- C6 counterexample: the quizzes-correct action of the reward table,
`fun_quiz_correct` (base reward 20), leaves every contribution counter
unchanged — the dynamic key `total_fun_quiz_corrects` matches no counter
field, and no action type at all can reach `total_quizzes_correct` (the
computed key always ends in `s`).  Likewise the fault-report reward action
`report_fault` leaves `total_fault_reports` at 0. -/
theorem counter_key_mismatch_counterexample :
    pointsFor "fun_quiz_correct" = 20 ∧
    ((logAction (newGameProfile "u1") "fun_quiz_correct" 0 none
        {}).1).contribution_summary = (newGameProfile "u1").contribution_summary ∧
    pointsFor "report_fault" = 50 ∧
    ((logAction (newGameProfile "u1") "report_fault" 0 none
        {}).1).contribution_summary.total_fault_reports = 0 := by
  refine ⟨rfl, ?_, rfl, ?_⟩ <;> decide

/-- C6 amended: `logAction` increments the counter whose schema key equals
`"total_" ++ actionType ++ "s"` when such a field exists
(`check_in`, `fault_report`, `ai_validation`, `black_spot_discoverie`,
`route_plan`, `chatbot_question`), and leaves every counter unchanged for
any other action type; in particular `total_quizzes_correct` and
`total_easter_eggs_redeemed` are never incremented by `logAction`. -/
theorem counter_increments_amended
    (p : GameProfileDoc) (action_type : String) (d : Int)
    (sid : Option String) (det : EventDetails) :
    (action_type = "check_in" →
      ((logAction p action_type d sid det).1).contribution_summary =
        { p.contribution_summary with
            total_check_ins := p.contribution_summary.total_check_ins + 1 }) ∧
    (action_type = "fault_report" →
      ((logAction p action_type d sid det).1).contribution_summary =
        { p.contribution_summary with
            total_fault_reports := p.contribution_summary.total_fault_reports + 1 }) ∧
    (action_type = "ai_validation" →
      ((logAction p action_type d sid det).1).contribution_summary =
        { p.contribution_summary with
            total_ai_validations := p.contribution_summary.total_ai_validations + 1 }) ∧
    (action_type = "black_spot_discoverie" →
      ((logAction p action_type d sid det).1).contribution_summary =
        { p.contribution_summary with
            total_black_spot_discoveries :=
              p.contribution_summary.total_black_spot_discoveries + 1 }) ∧
    (action_type = "route_plan" →
      ((logAction p action_type d sid det).1).contribution_summary =
        { p.contribution_summary with
            total_route_plans := p.contribution_summary.total_route_plans + 1 }) ∧
    (action_type = "chatbot_question" →
      ((logAction p action_type d sid det).1).contribution_summary =
        { p.contribution_summary with
            total_chatbot_questions :=
              p.contribution_summary.total_chatbot_questions + 1 }) ∧
    (("total_" ++ action_type ++ "s") ∉ summaryKeys →
      ((logAction p action_type d sid det).1).contribution_summary =
        p.contribution_summary) := by
  refine ⟨?_, ?_, ?_, ?_, ?_, ?_, ?_⟩
  all_goals intro h
  · subst h; simp [logAction, bumpCounter]
  · subst h; simp [logAction, bumpCounter]
  · subst h; simp [logAction, bumpCounter]
  · subst h; simp [logAction, bumpCounter]
  · subst h; simp [logAction, bumpCounter]
  · subst h; simp [logAction, bumpCounter]
  · simp only [summaryKeys, List.mem_cons, List.mem_singleton, not_or] at h
    obtain ⟨h1, h2, h3, h4, h5, h6, h7, h8, h9⟩ := h
    simp [logAction, bumpCounter, h1, h2, h3, h4, h5, h6, h7, h8, h9]

/-- Witness for C6's amended theorem: a `check_in` bumps `total_check_ins`
to 1, and `app_login` (key `total_app_logins`, not a schema field) leaves
all counters unchanged. -/
theorem counter_increments_amended_witness :
    ((logAction (newGameProfile "u1") "check_in" 0 none
        {}).1).contribution_summary =
      { (newGameProfile "u1").contribution_summary with total_check_ins := 1 } ∧
    ((logAction (newGameProfile "u1") "app_login" 0 none
        {}).1).contribution_summary = (newGameProfile "u1").contribution_summary := by
  refine ⟨?_, ?_⟩
  · have h := (counter_increments_amended (newGameProfile "u1") "check_in" 0
      none {}).1 rfl
    simpa using h
  · have h := (counter_increments_amended (newGameProfile "u1") "app_login" 0
      none {}).2.2.2.2.2.2 (by decide)
    simpa using h

/-- A profile holding one ACTIVE quest id in `active_quests` (the spec's
scenario-D quest: criterion 5 check-ins, reward 50 points). -/
def questProfileStart : GameProfileDoc :=
  { main_app_user_id := "u1", active_quests := [42] }

/-- Iterates `n` successive `check_in` calls through the store-level
`logAction` endpoint. -/
def iterateCheckIns : Nat → List GameProfileDoc × List GameEventDoc →
    List GameProfileDoc × List GameEventDoc
  | 0, s => s
  | n + 1, s =>
      iterateCheckIns n (logActionInStore s.1 s.2 "u1" "check_in" 0 none {})

/-- C7 (evaluation at the failing input): five check-in calls for a profile
holding an ACTIVE quest bring `total_check_ins` to the threshold 5, yet the
balance is only the 5 × 10 base points (50, not 100), the quest is still in
`active_quests`, and the log holds five `ACTION_PERFORMED` events and no
`QUEST_REWARD` or `POINTS_TRANSACTION` entry: `logAction` never evaluates
quests (TODO at gamification-controller.ts line 207, contradicting the
function's own doc comment "checks for quest/badge completion"). -/
theorem quest_reward_never_granted :
    ((iterateCheckIns 5 ([questProfileStart], [])).1.map
        fun p => p.contribution_summary.total_check_ins) = [5] ∧
    ((iterateCheckIns 5 ([questProfileStart], [])).1.map
        fun p => p.gamification_profile.points_balance) = [50] ∧
    ((iterateCheckIns 5 ([questProfileStart], [])).1.map
        fun p => p.active_quests) = [[42]] ∧
    ((iterateCheckIns 5 ([questProfileStart], [])).2.filter
        fun e => e.details.reason == some "QUEST_REWARD") = [] ∧
    ((iterateCheckIns 5 ([questProfileStart], [])).2.filter
        fun e => e.event_type == "POINTS_TRANSACTION") = [] ∧
    ((iterateCheckIns 5 ([questProfileStart], [])).2.map
        fun e => e.event_type) =
      ["ACTION_PERFORMED", "ACTION_PERFORMED", "ACTION_PERFORMED",
       "ACTION_PERFORMED", "ACTION_PERFORMED"] := by
  refine ⟨?_, ?_, ?_, ?_, ?_, ?_⟩ <;> decide

/-- C8: from a stored profile with nonnegative balance, `logAction` (any
action type) keeps the balance nonnegative, and after `purchaseVirtualItem`
(success or any failure) the stored profile for that user still has a
nonnegative balance. -/
theorem points_balance_stays_nonneg
    (catalog : List GameVirtualItemDoc) (store : List GameProfileDoc)
    (events : List GameEventDoc) (userId itemId action_type : String)
    (d : Int) (sid sid2 : Option String) (det : EventDetails)
    (p : GameProfileDoc)
    (hp : findProfile store userId = some p)
    (hnn : 0 ≤ p.gamification_profile.points_balance) :
    (0 ≤ ((logAction p action_type d sid
        det).1).gamification_profile.points_balance) ∧
    (∀ q, findProfile
          (purchaseInStore catalog store events userId itemId sid2).2.1 userId =
        some q →
      0 ≤ q.gamification_profile.points_balance) := by
  constructor
  · have hpf := pointsFor_nonneg action_type
    simp only [logAction]
    by_cases hpos : pointsFor action_type > 0 <;> simp [hpos] <;> omega
  · intro q hq
    have hid : p.main_app_user_id = userId := by
      have := List.find?_some hp
      simpa using this
    cases hres :
        purchaseVirtualItem catalog (findProfile store userId) userId itemId sid2 with
    | error e =>
      rw [purchaseInStore, hres] at hq
      rw [hp] at hq
      cases Option.some.inj hq
      exact hnn
    | ok r =>
      have hob := purchase_ok_profile catalog (findProfile store userId) userId
        itemId sid2 r hres (by rw [hp]; simpa using hnn)
      rw [purchaseInStore, hres] at hq
      have hrid : r.updated_profile.main_app_user_id = userId := by
        rw [hob.2, hp]; simpa using hid
      rw [← hrid] at hq
      rw [findProfile_saveProfile] at hq
      cases Option.some.inj hq
      exact hob.1

/-- Witness for C8: user with balance 100 buying the cost-60 item ends with
stored balance 40 ≥ 0, and a `check_in` keeps the balance nonnegative. -/
theorem points_balance_stays_nonneg_witness :
    (0 ≤ ((logAction demoProfileB "check_in" 0 none
        {}).1).gamification_profile.points_balance) ∧
    (∀ q, findProfile
          (purchaseInStore demoCatalogB [demoProfileB] [] "u1" "hat" none).2.1 "u1" =
        some q →
      0 ≤ q.gamification_profile.points_balance) :=
  points_balance_stays_nonneg demoCatalogB [demoProfileB] [] "u1" "hat"
    "check_in" 0 none none {} demoProfileB rfl (by decide)

/-- C9: every pair of adjacent entries of `getLeaderboard` is ordered by
non-increasing `net_worth`. -/
theorem leaderboard_sorted_desc (store : List GameProfileDoc) :
    List.Chain' (fun a b : LeaderboardEntry => b.net_worth ≤ a.net_worth)
      (getLeaderboard store) := by
  unfold getLeaderboard
  refine List.Pairwise.chain' ?_
  refine List.Pairwise.map _ (fun a b h => h) ?_
  exact List.Pairwise.sublist (List.take_sublist _ _)
    (List.sorted_insertionSort byNetWorthDesc store)

/-- C10: for a user with no stored profile and an item with a strictly
positive cost, the purchase fails with `InsufficientFunds` (the lazily
created profile starts at balance 0) and nothing is persisted: the store and
the event log are unchanged and a subsequent lookup still finds no profile. -/
theorem lazy_profile_purchase_not_persisted
    (catalog : List GameVirtualItemDoc) (store : List GameProfileDoc)
    (events : List GameEventDoc) (userId itemId : String) (sid : Option String)
    (item : GameVirtualItemDoc) (cost : Int)
    (hnone : findProfile store userId = none)
    (hitem : findItem catalog itemId = some item)
    (hcost : item.cost_points = some cost) (hpos : 0 < cost) :
    purchaseInStore catalog store events userId itemId sid =
      (.error .InsufficientFunds, store, events) ∧
    findProfile
        (purchaseInStore catalog store events userId itemId sid).2.1 userId =
      none := by
  have h1 : purchaseInStore catalog store events userId itemId sid =
      (.error .InsufficientFunds, store, events) := by
    simp [purchaseInStore, purchaseVirtualItem, hnone, hitem, hcost,
      newGameProfile, hpos]
  exact ⟨h1, by rw [h1]; exact hnone⟩

/-- Witness for C10: a user absent from an empty store purchasing the cost-60
catalog item gets `InsufficientFunds` and is still absent afterwards. -/
theorem lazy_profile_purchase_not_persisted_witness :
    purchaseInStore demoCatalogB [] [] "ghost" "hat" none =
      (.error .InsufficientFunds, [], []) ∧
    findProfile (purchaseInStore demoCatalogB [] [] "ghost" "hat" none).2.1
        "ghost" = none :=
  lazy_profile_purchase_not_persisted demoCatalogB [] [] "ghost" "hat" none
    { oid := 7, item_id_string := "hat", name := "Hat",
      cost_points := some 60, value_points := 80 }
    60 rfl rfl rfl (by decide)

end EVAT
